import Mathlib

/-!
Verification of the transform and load stages of the game-data ETL pipeline
(src/etl/pipeline.py).

The raw API records are JSON-like objects; we embed them as the inductive
type `Json`.  Python dictionary access, truthiness, `or`-defaulting, list
iteration, `len`, slicing and `str.replace` are embedded faithfully; any
operation that would raise a Python exception (e.g. `.get` on a non-dict,
iterating a non-list) is modelled by `Except.error`, threaded through the
explicit bind `eb`.

Each `_transform_*` method of `Transformer` becomes a function
`transform_* : List Json → Except String Table`, a `Table` being the list
of rows the method appends before `pd.DataFrame` is built (a row is the
dict literal of the source, i.e. an association list of column name to
cell value).  `Transformer.transform_all` and `Loader.load_all` are
embedded at the same level of detail; sqlite and pandas I/O failures in
`load_all` are abstracted by an oracle `writeOk` saying which `to_sql`
calls succeed.
-/

namespace GameEtl

/-- JSON values as Python represents them: None, bool, number, string,
list, dict (insertion-ordered association list). -/
inductive Json where
  | null : Json
  | bool : Bool → Json
  | num : Int → Json
  | str : String → Json
  | arr : List Json → Json
  | obj : List (String × Json) → Json

/-- One output row: the dict literal appended by a transform method. -/
abbrev Row : Type := List (String × Json)

/-- One output table: the list of rows handed to `pd.DataFrame`. -/
abbrev Table : Type := List Row

/-- First binding of a key in a Python dict (keys are unique, so first
match is the value). -/
def lookupField : List (String × Json) → String → Option Json
  | [], _ => none
  | (k, v) :: rest, key => if k = key then some v else lookupField rest key

/-- Python truthiness of a JSON value. -/
def Json.truthy : Json → Bool
  | .null => false
  | .bool b => b
  | .num n => decide (n ≠ 0)
  | .str s => decide (s ≠ "")
  | .arr xs => !xs.isEmpty
  | .obj fs => !fs.isEmpty

/-- Python `x or y`. -/
def pyOr (a b : Json) : Json := if a.truthy then a else b

/-- Python `d.get(k, default)`: total on dicts, raises `AttributeError` on
anything else. -/
def pyGet (j : Json) (k : String) (d : Json) : Except String Json :=
  match j with
  | .obj fs => .ok ((lookupField fs k).getD d)
  | _ => .error "AttributeError: get on non-dict"

/-- Python `d.get(k, default)` on a value already known to be a dict. -/
def objGet (fs : List (String × Json)) (k : String) (d : Json) : Json :=
  (lookupField fs k).getD d

/-- Iterating a value in a `for` loop: only lists iterate into records
here; anything else raises (None most importantly: `TypeError`). -/
def Json.asList : Json → Except String (List Json)
  | .arr xs => .ok xs
  | _ => .error "TypeError: not iterable"

/-- Python `len`. -/
def pyLen : Json → Except String Nat
  | .str s => .ok s.length
  | .arr xs => .ok xs.length
  | .obj fs => .ok fs.length
  | _ => .error "TypeError: object has no len"

/-- Python slicing `x[:n]` (code points for strings). -/
def pyTake (n : Nat) : Json → Except String Json
  | .str s => .ok (.str (String.mk (s.data.take n)))
  | .arr xs => .ok (.arr (xs.take n))
  | _ => .error "TypeError: object is not subscriptable"

/-- The literal removed from weapon categories. -/
def catMarker : List Char := "EEquippableCategory::".data

/-- Does `pat` occur at the head of `s`? -/
def matchesAt : List Char → List Char → Bool
  | [], _ => true
  | _ :: _, [] => false
  | p :: ps, c :: cs => p == c && matchesAt ps cs

/-- Fuel-driven core of Python `s.replace(marker, '')`: scan left to
right, removing each non-overlapping occurrence of the marker. -/
def removeMarker : Nat → List Char → List Char
  | 0, s => s
  | _ + 1, [] => []
  | fuel + 1, c :: rest =>
    if matchesAt catMarker (c :: rest) then
      removeMarker fuel ((c :: rest).drop catMarker.length)
    else
      c :: removeMarker fuel rest

/-- Embeds `s.replace('EEquippableCategory::', '')` as the source performs it. -/
def stripCategory (s : String) : String :=
  String.mk (removeMarker s.data.length s.data)

/-- Applies `x.replace('EEquippableCategory::', '')`: a method of `str`, so any
non-string receiver raises. -/
def pyReplaceCat : Json → Except String Json
  | .str s => .ok (.str (stripCategory s))
  | _ => .error "AttributeError: replace on non-string"

/-- Exception-threading bind for the embedded Python evaluation. -/
def eb (x : Except String α) (f : α → Except String β) : Except String β :=
  match x with
  | .error e => .error e
  | .ok a => f a

/-- The role expression of `_transform_agents` and `_transform_abilities`:
the nested `displayName` with default `'Unknown'` when `a.get('role')` is
truthy, plain `'Unknown'` otherwise. -/
def agentRole (a : Json) : Except String Json :=
  eb (pyGet a "role" .null) fun cond =>
  if cond.truthy then
    eb (pyGet a "role" (.obj [])) fun r =>
    pyGet r "displayName" (.str "Unknown")
  else
    .ok (.str "Unknown")

/-- The description expression of the agent/ability rows:
`(x.get('description', '') or '')[:500]`. -/
def descr500 (x : Json) : Except String Json :=
  eb (pyGet x "description" (.str "")) fun d =>
  pyTake 500 (pyOr d (.str ""))

/-- Rows contributed by one raw agent record in `_transform_agents`:
none when not flagged playable, otherwise the single dict literal of the
source. -/
def agentRowsOf (a : Json) : Except String (List Row) :=
  eb (pyGet a "isPlayableCharacter" (.bool false)) fun flag =>
  if !flag.truthy then
    .ok []
  else
    eb (pyGet a "uuid" (.str "")) fun uuid =>
    eb (pyGet a "displayName" (.str "")) fun name =>
    eb (agentRole a) fun role =>
    eb (descr500 a) fun de =>
    eb (pyGet a "displayIcon" (.str "")) fun icon =>
    .ok [[("uuid", uuid), ("name", name), ("role", role),
          ("description", de), ("icon_url", icon)]]

/-- One row of the Ability table (`_transform_abilities` inner loop body). -/
def abilityRowOf (name role : Json) (ab : Json) : Except String Row :=
  eb (pyGet ab "slot" (.str "")) fun slot =>
  eb (pyGet ab "displayName" (.str "")) fun aname =>
  eb (descr500 ab) fun de =>
  .ok [("agent_name", name), ("agent_role", role), ("slot", slot),
       ("ability_name", aname), ("description", de)]

/-- Sequence a row-producing function over a list, stopping at the first
exception (the shape of every `for`-append loop in the source). -/
def rowsMapM (f : Json → Except String Row) : List Json → Except String (List Row)
  | [] => .ok []
  | x :: rest =>
    eb (f x) fun r =>
    eb (rowsMapM f rest) fun rs =>
    .ok (r :: rs)

/-- Rows contributed by one raw agent record in `_transform_abilities`.
Note the source iterates `a.get('abilities', [])` with no `or []` guard,
so a record whose `abilities` key holds `null` raises here. -/
def abilityRowsOf (a : Json) : Except String (List Row) :=
  eb (pyGet a "isPlayableCharacter" (.bool false)) fun flag =>
  if !flag.truthy then
    .ok []
  else
    eb (pyGet a "displayName" (.str "")) fun name =>
    eb (agentRole a) fun role =>
    eb (pyGet a "abilities" (.arr [])) fun absJ =>
    eb absJ.asList fun abs =>
    rowsMapM (abilityRowOf name role) abs

/-- Rows contributed by one raw weapon record in `_transform_weapons`. -/
def weaponRowsOf (w : Json) : Except String (List Row) :=
  eb (pyGet w "weaponStats" .null) fun statsJ =>
  let stats := pyOr statsJ (.obj [])
  eb (pyGet w "shopData" .null) fun shopJ =>
  let shop := pyOr shopJ (.obj [])
  eb (pyGet w "uuid" (.str "")) fun uuid =>
  eb (pyGet w "displayName" (.str "")) fun name =>
  eb (pyGet w "category" (.str "")) fun catJ =>
  eb (pyReplaceCat (pyOr catJ (.str ""))) fun cat =>
  eb (pyGet shop "cost" (.num 0)) fun cost =>
  eb (pyGet stats "fireRate" (.num 0)) fun fireRate =>
  eb (pyGet stats "magazineSize" (.num 0)) fun magazineSize =>
  eb (pyGet stats "reloadTimeSeconds" (.num 0)) fun reloadTime =>
  eb (pyGet stats "equipTimeSeconds" (.num 0)) fun equipTime =>
  eb (pyGet stats "firstBulletAccuracy" (.num 0)) fun firstBullet =>
  eb (pyGet stats "wallPenetration" (.str "")) fun wallPen =>
  eb (pyGet w "displayIcon" (.str "")) fun icon =>
  .ok [[("uuid", uuid), ("name", name), ("category", cat), ("cost", cost),
        ("fire_rate", fireRate), ("magazine_size", magazineSize),
        ("reload_time", reloadTime), ("equip_time", equipTime),
        ("first_bullet_accuracy", firstBullet),
        ("wall_penetration", wallPen), ("icon_url", icon)]]

/-- One row of the WeaponDamageRange table at position `i`. -/
def damageRowOf (wname : Json) (i : Nat) (dr : Json) : Except String Row :=
  eb (pyGet dr "rangeStartMeters" (.num 0)) fun rs =>
  eb (pyGet dr "rangeEndMeters" (.num 0)) fun re =>
  eb (pyGet dr "headDamage" (.num 0)) fun hd =>
  eb (pyGet dr "bodyDamage" (.num 0)) fun bd =>
  eb (pyGet dr "legDamage" (.num 0)) fun ld =>
  .ok [("weapon_name", wname), ("range_index", .num i), ("range_start", rs),
       ("range_end", re), ("head_damage", hd), ("body_damage", bd),
       ("leg_damage", ld)]

/-- The `enumerate` loop of `_transform_damage_ranges`, carrying the
running zero-based index. -/
def damageRowsAux (wname : Json) (i : Nat) : List Json → Except String (List Row)
  | [] => .ok []
  | dr :: rest =>
    eb (damageRowOf wname i dr) fun r =>
    eb (damageRowsAux wname (i + 1) rest) fun rs =>
    .ok (r :: rs)

/-- Rows contributed by one raw weapon record in
`_transform_damage_ranges`: note the guarded
`stats.get('damageRanges', []) or []`. -/
def damageRowsOf (w : Json) : Except String (List Row) :=
  eb (pyGet w "weaponStats" .null) fun statsJ =>
  let stats := pyOr statsJ (.obj [])
  eb (pyGet stats "damageRanges" (.arr [])) fun drsJ =>
  eb (pyOr drsJ (.arr [])).asList fun drs =>
  eb (pyGet w "displayName" (.str "")) fun wname =>
  damageRowsAux wname 0 drs

/-- Rows contributed by one raw map record in `_transform_maps`: the
callouts list is counted (`len`), never copied. -/
def mapRowsOf (m : Json) : Except String (List Row) :=
  eb (pyGet m "callouts" .null) fun cJ =>
  let callouts := pyOr cJ (.arr [])
  eb (pyLen callouts) fun n =>
  eb (pyGet m "uuid" (.str "")) fun uuid =>
  eb (pyGet m "displayName" (.str "")) fun name =>
  eb (pyGet m "coordinates" (.str "")) fun coords =>
  eb (pyGet m "splash" (.str "")) fun splash =>
  .ok [[("uuid", uuid), ("name", name), ("coordinates", coords),
        ("num_callouts", .num n), ("splash_url", splash)]]

/-- Rows contributed by one raw gamemode record in `_transform_gamemodes`. -/
def gamemodeRowsOf (mo : Json) : Except String (List Row) :=
  eb (pyGet mo "uuid" (.str "")) fun uuid =>
  eb (pyGet mo "displayName" (.str "")) fun name =>
  eb (pyGet mo "duration" (.str "")) fun dur =>
  eb (pyGet mo "allowsMatchTimeouts" (.bool false)) fun timeouts =>
  .ok [[("uuid", uuid), ("name", name), ("duration", dur),
        ("allows_timeouts", timeouts)]]

/-- The `for`-append loop over the raw record list common to all six
transform methods: each record's rows are appended in source order. -/
def foldRows (f : Json → Except String (List Row)) : List Json → Except String Table
  | [] => .ok []
  | x :: rest =>
    eb (f x) fun rows =>
    eb (foldRows f rest) fun rest2 =>
    .ok (rows ++ rest2)

/-- Embeds `Transformer._transform_agents`. -/
def transform_agents (raw : List Json) : Except String Table :=
  foldRows agentRowsOf raw

/-- Embeds `Transformer._transform_abilities`. -/
def transform_abilities (raw : List Json) : Except String Table :=
  foldRows abilityRowsOf raw

/-- Embeds `Transformer._transform_weapons`. -/
def transform_weapons (raw : List Json) : Except String Table :=
  foldRows weaponRowsOf raw

/-- Embeds `Transformer._transform_damage_ranges`. -/
def transform_damage_ranges (raw : List Json) : Except String Table :=
  foldRows damageRowsOf raw

/-- Embeds `Transformer._transform_maps`. -/
def transform_maps (raw : List Json) : Except String Table :=
  foldRows mapRowsOf raw

/-- Embeds `Transformer._transform_gamemodes`. -/
def transform_gamemodes (raw : List Json) : Except String Table :=
  foldRows gamemodeRowsOf raw

/-- The extracted data handed to `transform_all`: one optional record
list per endpoint key the method tests for (`'agents' in raw_data` etc.;
`none` models an absent key). -/
structure RawData where
  agents : Option (List Json)
  weapons : Option (List Json)
  maps : Option (List Json)
  gamemodes : Option (List Json)

/-- The transformed mapping: one optional table per output name;
`none` models a key absent from the `transformed` dict. -/
structure Transformed where
  agents : Option Table
  abilities : Option Table
  weapons : Option Table
  weapon_damage : Option Table
  maps : Option Table
  gamemodes : Option Table

/-- Embeds `Transformer.transform_all`: each endpoint key present in the input
produces its table(s); an absent key produces nothing. -/
def transform_all (raw : RawData) : Except String Transformed :=
  eb (match raw.agents with
      | some l =>
        eb (transform_agents l) fun a =>
        eb (transform_abilities l) fun b =>
        .ok (some a, some b)
      | none => .ok (none, none)) fun ag =>
  eb (match raw.weapons with
      | some l =>
        eb (transform_weapons l) fun a =>
        eb (transform_damage_ranges l) fun b =>
        .ok (some a, some b)
      | none => .ok (none, none)) fun wp =>
  eb (match raw.maps with
      | some l => eb (transform_maps l) fun a => .ok (some a)
      | none => .ok none) fun mp =>
  eb (match raw.gamemodes with
      | some l => eb (transform_gamemodes l) fun a => .ok (some a)
      | none => .ok none) fun gm =>
  .ok { agents := ag.1, abilities := ag.2, weapons := wp.1,
        weapon_damage := wp.2, maps := mp, gamemodes := gm }

/-! ## The Loader (`Loader.load_all`) -/

/-- One row of the `etl_runs` metadata table. -/
structure EtlRun where
  run_id : String
  started_at : String
  completed_at : String
  status : String
  tables_loaded : Int
  total_rows : Int
  duration_seconds : Int
deriving DecidableEq

/-- The sqlite database: the `etl_runs` table plus the named data tables. -/
structure Db where
  etl_runs : List EtlRun
  tables : List (String × Table)

/-- The two metadata columns stamped onto every row before `to_sql`. -/
def stampRow (run_id now : String) (r : Row) : Row :=
  r ++ [("_etl_run_id", .str run_id), ("_etl_loaded_at", .str now)]

/-- Embeds `df.to_sql(name, conn, if_exists='replace')`: replace the named
table's contents wholesale, creating it when absent. -/
def writeTable (tabs : List (String × Table)) (name : String) (t : Table) :
    List (String × Table) :=
  if tabs.any (fun p => p.fst = name) then
    tabs.map (fun p => if p.fst = name then (name, t) else p)
  else
    tabs ++ [(name, t)]

/-- Embeds `INSERT OR REPLACE INTO etl_runs`: replace by primary key `run_id`. -/
def insertOrReplaceRun (runs : List EtlRun) (r : EtlRun) : List EtlRun :=
  (runs.filter fun x => x.run_id ≠ r.run_id) ++ [r]

/-- The table loop of `load_all`: empty tables are skipped (never
written); each non-empty table is stamped and written, accumulating
`total_rows`; a failed `to_sql` (oracle `writeOk` false) raises,
leaving the already-written tables in place. -/
def loadTables (writeOk : String → Table → Bool) (run_id now : String) :
    List (String × Table) → List (String × Table) →
    List (String × Table) × Except String Int
  | tabs, [] => (tabs, .ok 0)
  | tabs, (name, df) :: rest =>
    if df.isEmpty then
      loadTables writeOk run_id now tabs rest
    else if writeOk name df then
      let tabs2 := writeTable tabs name (df.map (stampRow run_id now))
      match loadTables writeOk run_id now tabs2 rest with
      | (t2, .ok n) => (t2, .ok (Int.ofNat df.length + n))
      | (t2, .error e) => (t2, .error e)
    else
      (tabs, .error ("to_sql failed: " ++ name))

/-- Embeds `Loader.load_all`: write the non-empty tables, then record one
success row keyed by `run_id` (counting all handed tables but only the
written rows); on any exception record a failure row for the same
`run_id` and re-raise.  `now` and `dur` stand for the wall-clock reads. -/
def load_all (writeOk : String → Table → Bool) (db : Db)
    (data : List (String × Table)) (run_id now : String) (dur : Int) :
    Db × Except String Unit :=
  match loadTables writeOk run_id now db.tables data with
  | (tabs2, .ok total) =>
    ({ etl_runs := insertOrReplaceRun db.etl_runs
         { run_id := run_id, started_at := now, completed_at := now,
           status := "Success", tables_loaded := Int.ofNat data.length,
           total_rows := total, duration_seconds := dur },
       tables := tabs2 }, .ok ())
  | (tabs2, .error e) =>
    ({ etl_runs := insertOrReplaceRun db.etl_runs
         { run_id := run_id, started_at := now, completed_at := now,
           status := "Failed: " ++ e, tables_loaded := 0,
           total_rows := 0, duration_seconds := 0 },
       tables := tabs2 }, .error e)

/-! ## Definitions used to state the claims -/

/-- The category rule as the claim words it: the marker is stripped only
when it occurs as a leading piece of the string, otherwise the string is
left unchanged (compare with `stripCategory`, which the source computes
with `str.replace`). -/
def claimCategoryRule (s : String) : String :=
  if matchesAt catMarker s.data then String.mk (s.data.drop catMarker.length) else s

/-- Category cell of the first row of a transform result. -/
def firstRowCategory (t : Except String Table) : Option Json :=
  match t with
  | .ok (row :: _) => lookupField row "category"
  | _ => none

/-- Ability rows contributed by one raw record, as the spec's row-count
law words it: the length of the abilities list of a playable record,
zero for a non-playable record. -/
def specAbilityCount : Json → Nat
  | .obj fs =>
    if (objGet fs "isPlayableCharacter" (.bool false)).truthy then
      match objGet fs "abilities" (.arr []) with
      | .arr xs => xs.length
      | _ => 0
    else 0
  | _ => 0

/-- Agent rows contributed by one raw record: one for a playable record,
zero otherwise. -/
def specAgentCount : Json → Nat
  | .obj fs =>
    if (objGet fs "isPlayableCharacter" (.bool false)).truthy then 1 else 0
  | _ => 0

/-- Row count the Loader actually writes: the rows of every non-empty
table handed to it (empty tables are skipped). -/
def writtenRows (data : List (String × Table)) : Nat :=
  ((data.filter fun p => !p.2.isEmpty).map fun p => p.2.length).sum

/-! ## Concrete fixtures for witnesses and counterexamples -/

/-- A playable agent record whose `abilities` key holds JSON null. -/
def nullAbilitiesAgent : Json :=
  .obj [("isPlayableCharacter", .bool true), ("abilities", .null)]

/-- A weapon record whose category carries the marker twice. -/
def doubleMarkerFields : List (String × Json) :=
  [("category", .str "EEquippableCategory::EEquippableCategory::Rifle")]

/-- A weapon record with the ordinary marker-led category. -/
def riflePrefixFields : List (String × Json) :=
  [("category", .str "EEquippableCategory::Rifle")]

/-- Output row of `transform_weapons` on `riflePrefixFields`. -/
def rifleRow : Row :=
  [("uuid", .str ""), ("name", .str ""), ("category", .str "Rifle"),
   ("cost", .num 0), ("fire_rate", .num 0), ("magazine_size", .num 0),
   ("reload_time", .num 0), ("equip_time", .num 0),
   ("first_bullet_accuracy", .num 0), ("wall_penetration", .str ""),
   ("icon_url", .str "")]

/-- A 501-character description. -/
def longDescr : String := String.mk (List.replicate 501 'a')

/-- A playable agent record with the 501-character description. -/
def longDescrFields : List (String × Json) :=
  [("isPlayableCharacter", .bool true), ("description", .str longDescr)]

/-- Output row of `transform_agents` on `longDescrFields`. -/
def truncAgentRow : Row :=
  [("uuid", .str ""), ("name", .str ""), ("role", .str "Unknown"),
   ("description", .str (String.mk (longDescr.data.take 500))),
   ("icon_url", .str "")]

/-- A playable agent whose single ability has a null description. -/
def nullDescrAbilityFields : List (String × Json) :=
  [("isPlayableCharacter", .bool true), ("displayName", .str "A"),
   ("abilities", .arr [.obj [("description", .null)]])]

/-- Output row of `transform_abilities` on `nullDescrAbilityFields`. -/
def nullDescrAbilityRow : Row :=
  [("agent_name", .str "A"), ("agent_role", .str "Unknown"), ("slot", .str ""),
   ("ability_name", .str ""), ("description", .str "")]

/-- A playable agent named "A" with two abilities. -/
def playableTwoAbilities : Json :=
  .obj [("isPlayableCharacter", .bool true), ("displayName", .str "A"),
        ("abilities", .arr [.obj [("slot", .str "Q")], .obj [("slot", .str "E")]])]

/-- A non-playable record carrying three abilities. -/
def nonPlayableFields : List (String × Json) :=
  [("isPlayableCharacter", .bool false),
   ("abilities", .arr [.obj [], .obj [], .obj []])]

/-- The two-record agents endpoint of the end-to-end scenario. -/
def agentsFixture : List Json := [playableTwoAbilities, .obj nonPlayableFields]

/-- Agent row produced for `playableTwoAbilities`. -/
def agentFixtureRow : Row :=
  [("uuid", .str ""), ("name", .str "A"), ("role", .str "Unknown"),
   ("description", .str ""), ("icon_url", .str "")]

/-- First ability row produced for `playableTwoAbilities`. -/
def abilityRowQ : Row :=
  [("agent_name", .str "A"), ("agent_role", .str "Unknown"), ("slot", .str "Q"),
   ("ability_name", .str ""), ("description", .str "")]

/-- Second ability row produced for `playableTwoAbilities`. -/
def abilityRowE : Row :=
  [("agent_name", .str "A"), ("agent_role", .str "Unknown"), ("slot", .str "E"),
   ("ability_name", .str ""), ("description", .str "")]

/-- Raw data with only `maps` (empty) and `gamemodes` (empty) present. -/
def raw5Fixture : RawData :=
  { agents := none, weapons := none, maps := some [], gamemodes := some [] }

/-- Expected `transform_all` output for `raw5Fixture`. -/
def t5Fixture : Transformed :=
  { agents := none, abilities := none, weapons := none, weapon_damage := none,
    maps := some [], gamemodes := some [] }

/-- A map record with two callouts. -/
def ascentFields : List (String × Json) :=
  [("displayName", .str "Ascent"), ("callouts", .arr [.obj [], .obj []])]

/-- Output row of `transform_maps` on `ascentFields`. -/
def ascentRow : Row :=
  [("uuid", .str ""), ("name", .str "Ascent"), ("coordinates", .str ""),
   ("num_callouts", .num 2), ("splash_url", .str "")]

/-- Weapon stats carrying three damage brackets. -/
def vandalStats : List (String × Json) :=
  [("damageRanges", .arr [.obj [], .obj [], .obj []])]

/-- A weapon record with the three damage brackets. -/
def vandalFields : List (String × Json) :=
  [("displayName", .str "Vandal"), ("weaponStats", .obj vandalStats)]

/-- Damage-range row at position `i` produced for `vandalFields`. -/
def vandalRangeRow (i : Nat) : Row :=
  [("weapon_name", .str "Vandal"), ("range_index", .num i),
   ("range_start", .num 0), ("range_end", .num 0), ("head_damage", .num 0),
   ("body_damage", .num 0), ("leg_damage", .num 0)]

/-- An empty database. -/
def emptyDb : Db := { etl_runs := [], tables := [] }

/-- A one-row agents table for the Loader fixtures. -/
def agentsTableFixture : Table := [[("uuid", .str "u1")]]

/-- Metadata row recorded when writing the agents table fails. -/
def failedRunRow : EtlRun :=
  { run_id := "run1", started_at := "t0", completed_at := "t0",
    status := "Failed: to_sql failed: agents", tables_loaded := 0,
    total_rows := 0, duration_seconds := 0 }

/-- Two tables handed to the Loader, the first of them empty. -/
def loadDataFixture : List (String × Table) :=
  [("agents", []), ("maps", [[("uuid", .str "m1")]])]

/-- Metadata row recorded on the successful `loadDataFixture` run. -/
def successRunRow : EtlRun :=
  { run_id := "run2", started_at := "t1", completed_at := "t1",
    status := "Success", tables_loaded := 2, total_rows := 1,
    duration_seconds := 5 }

/-! ## General lemmas about the embedded evaluation -/

@[simp] theorem eb_ok (a : α) (f : α → Except String β) : eb (.ok a) f = f a := rfl

@[simp] theorem eb_error (e : String) (f : α → Except String β) :
    eb (Except.error e) f = .error e := rfl

theorem eb_ok_iff (x : Except String α) (f : α → Except String β) (b : β) :
    eb x f = .ok b ↔ ∃ a, x = .ok a ∧ f a = .ok b := by
  cases x with
  | error e => simp [eb]
  | ok a => simp [eb]

@[simp] theorem pyGet_obj (fs : List (String × Json)) (k : String) (d : Json) :
    pyGet (.obj fs) k d = .ok (objGet fs k d) := rfl

@[simp] theorem foldRows_nil (f : Json → Except String (List Row)) :
    foldRows f [] = .ok [] := rfl

theorem foldRows_cons (f : Json → Except String (List Row)) (x : Json)
    (rest : List Json) :
    foldRows f (x :: rest) =
      eb (f x) fun rows => eb (foldRows f rest) fun rest2 => .ok (rows ++ rest2) :=
  rfl

@[simp] theorem foldRows_singleton (f : Json → Except String (List Row)) (x : Json) :
    foldRows f [x] = f x := by
  cases h : f x <;> simp [foldRows_cons, h]

theorem pyReplaceCat_or_str (s : String) :
    pyReplaceCat (pyOr (.str s) (.str "")) = .ok (.str (stripCategory s)) := by
  by_cases h : s = ""
  · subst h; rfl
  · simp [pyOr, Json.truthy, h, pyReplaceCat]

theorem pyTake_or_str (n : Nat) (s : String) :
    pyTake n (pyOr (.str s) (.str "")) = .ok (.str (String.mk (s.data.take n))) := by
  by_cases h : s = ""
  · subst h; simp [pyOr, Json.truthy, pyTake]
  · simp [pyOr, Json.truthy, h, pyTake]

theorem asList_or_arr (xs : List Json) :
    Json.asList (pyOr (.arr xs) (.arr [])) = .ok xs := by
  cases xs <;> simp [pyOr, Json.truthy, Json.asList]

theorem pyLen_or_arr (xs : List Json) :
    pyLen (pyOr (.arr xs) (.arr [])) = .ok xs.length := by
  cases xs <;> simp [pyOr, Json.truthy, pyLen]

theorem descr500_obj_str (fs : List (String × Json)) (s : String)
    (h : lookupField fs "description" = some (.str s)) :
    descr500 (.obj fs) = .ok (.str (String.mk (s.data.take 500))) := by
  simp [descr500, objGet, h, pyTake_or_str]

theorem descr500_obj_missing (fs : List (String × Json))
    (h : lookupField fs "description" = none ∨
         lookupField fs "description" = some .null) :
    descr500 (.obj fs) = .ok (.str "") := by
  rcases h with h | h <;> simp [descr500, objGet, h, pyOr, Json.truthy, pyTake]

/-! ## C1 -/

/-- C1: the spec says the transform never raises for missing/null fields,
every such field being absorbed by its documented default; but a playable
agent record whose `abilities` field holds null makes
`_transform_abilities` iterate `None` (`a.get('abilities', [])` returns
the stored null since the key is present, and the `for` loop raises
`TypeError`; compare the guarded `or []` on `damageRanges` and
`callouts`), so transforming the `agents` endpoint raises instead of
defaulting. -/
theorem c1_null_abilities_raises :
    transform_abilities [nullAbilitiesAgent] = .error "TypeError: not iterable" ∧
    transform_all { agents := some [nullAbilitiesAgent], weapons := none,
                    maps := none, gamemodes := none } =
      .error "TypeError: not iterable" :=
  ⟨rfl, rfl⟩

/-! ## C2 -/

/-- C2 counterexample: on a category string carrying the marker twice the
code (Python `str.replace`) removes every occurrence, yielding `"Rifle"`,
while the claim's strip-a-leading-marker-once rule yields
`"EEquippableCategory::Rifle"`; the two disagree. -/
theorem c2_category_counterexample :
    firstRowCategory (transform_weapons [.obj doubleMarkerFields]) =
      some (.str "Rifle") ∧
    claimCategoryRule "EEquippableCategory::EEquippableCategory::Rifle" =
      "EEquippableCategory::Rifle" ∧
    ("Rifle" : String) ≠ "EEquippableCategory::Rifle" :=
  ⟨rfl, rfl, by decide⟩

/-- C2 amended: for every weapon record the output category is the input
category string with every occurrence of `"EEquippableCategory::"`
removed (Python `replace` semantics, `stripCategory`), after a null or
absent category first coalesces to the empty string; the claim's three
examples still hold (see the witness). -/
theorem c2_category_replace_all (fs : List (String × Json)) (row : Row)
    (h : transform_weapons [.obj fs] = .ok [row]) :
    (∀ s, lookupField fs "category" = some (.str s) →
        lookupField row "category" = some (.str (stripCategory s))) ∧
    (lookupField fs "category" = some .null →
        lookupField row "category" = some (.str "")) ∧
    (lookupField fs "category" = none →
        lookupField row "category" = some (.str "")) := by
  simp only [transform_weapons, foldRows_singleton, weaponRowsOf, pyGet_obj,
    eb_ok] at h
  rw [eb_ok_iff] at h; obtain ⟨cat, hcat, h⟩ := h
  rw [eb_ok_iff] at h; obtain ⟨cost, -, h⟩ := h
  rw [eb_ok_iff] at h; obtain ⟨fr, -, h⟩ := h
  rw [eb_ok_iff] at h; obtain ⟨ms, -, h⟩ := h
  rw [eb_ok_iff] at h; obtain ⟨rt, -, h⟩ := h
  rw [eb_ok_iff] at h; obtain ⟨et, -, h⟩ := h
  rw [eb_ok_iff] at h; obtain ⟨fb, -, h⟩ := h
  rw [eb_ok_iff] at h; obtain ⟨wpn, -, h⟩ := h
  simp at h
  subst h
  refine ⟨?_, ?_, ?_⟩
  · intro s hs
    simp only [objGet, hs, Option.getD_some] at hcat
    rw [pyReplaceCat_or_str] at hcat
    simp at hcat
    subst hcat
    rfl
  · intro hs
    simp only [objGet, hs, Option.getD_some] at hcat
    simp only [pyOr, Json.truthy, Bool.false_eq_true, if_false,
      pyReplaceCat] at hcat
    simp at hcat
    rw [← hcat]
    rfl
  · intro hs
    simp only [objGet, hs, Option.getD_none] at hcat
    rw [pyReplaceCat_or_str] at hcat
    simp at hcat
    rw [← hcat]
    rfl

/-- C2 witness: the three documented examples, through the full
transform for the marker-led one. -/
theorem c2_category_witness :
    transform_weapons [.obj riflePrefixFields] = .ok [rifleRow] ∧
    lookupField riflePrefixFields "category" =
      some (.str "EEquippableCategory::Rifle") ∧
    lookupField rifleRow "category" =
      some (.str (stripCategory "EEquippableCategory::Rifle")) ∧
    stripCategory "EEquippableCategory::Rifle" = "Rifle" ∧
    stripCategory "Rifle" = "Rifle" ∧
    stripCategory "" = "" :=
  ⟨rfl, rfl,
   (c2_category_replace_all riflePrefixFields rifleRow rfl).1
     "EEquippableCategory::Rifle" rfl,
   rfl, rfl, rfl⟩

/-! ## C3 -/

/-- C3: descriptions are null-coalesced to the empty string and then hard
truncated to 500 code points, in the Agent table and in the Ability
table alike; a longer description yields exactly 500 characters and a
shorter one is returned unchanged. -/
theorem c3_description_truncation :
    (∀ fs row s, transform_agents [.obj fs] = .ok [row] →
        lookupField fs "description" = some (.str s) →
        lookupField row "description" =
          some (.str (String.mk (s.data.take 500)))) ∧
    (∀ fs row, transform_agents [.obj fs] = .ok [row] →
        (lookupField fs "description" = none ∨
         lookupField fs "description" = some .null) →
        lookupField row "description" = some (.str "")) ∧
    (∀ fs afs row s, transform_abilities [.obj fs] = .ok [row] →
        lookupField fs "abilities" = some (.arr [.obj afs]) →
        lookupField afs "description" = some (.str s) →
        lookupField row "description" =
          some (.str (String.mk (s.data.take 500)))) ∧
    (∀ fs afs row, transform_abilities [.obj fs] = .ok [row] →
        lookupField fs "abilities" = some (.arr [.obj afs]) →
        (lookupField afs "description" = none ∨
         lookupField afs "description" = some .null) →
        lookupField row "description" = some (.str "")) ∧
    (∀ s : String, 500 < s.length → (String.mk (s.data.take 500)).length = 500) ∧
    (∀ s : String, s.length ≤ 500 → String.mk (s.data.take 500) = s) := by
  refine ⟨?_, ?_, ?_, ?_, ?_, ?_⟩
  · intro fs row s h hs
    simp only [transform_agents, foldRows_singleton, agentRowsOf, pyGet_obj,
      eb_ok] at h
    cases hf : (objGet fs "isPlayableCharacter" (.bool false)).truthy with
    | false => rw [hf] at h; simp at h
    | true =>
      rw [hf] at h
      simp only [Bool.not_true, Bool.false_eq_true, if_false] at h
      rw [eb_ok_iff] at h; obtain ⟨role, -, h⟩ := h
      rw [eb_ok_iff] at h; obtain ⟨de, hd, h⟩ := h
      simp at h
      subst h
      rw [descr500_obj_str fs s hs] at hd
      simp at hd
      subst hd
      rfl
  · intro fs row h hs
    simp only [transform_agents, foldRows_singleton, agentRowsOf, pyGet_obj,
      eb_ok] at h
    cases hf : (objGet fs "isPlayableCharacter" (.bool false)).truthy with
    | false => rw [hf] at h; simp at h
    | true =>
      rw [hf] at h
      simp only [Bool.not_true, Bool.false_eq_true, if_false] at h
      rw [eb_ok_iff] at h; obtain ⟨role, -, h⟩ := h
      rw [eb_ok_iff] at h; obtain ⟨de, hd, h⟩ := h
      simp at h
      subst h
      rw [descr500_obj_missing fs hs] at hd
      simp at hd
      subst hd
      rfl
  · intro fs afs row s h habs hs
    simp only [transform_abilities, foldRows_singleton, abilityRowsOf,
      pyGet_obj, eb_ok] at h
    cases hf : (objGet fs "isPlayableCharacter" (.bool false)).truthy with
    | false => rw [hf] at h; simp at h
    | true =>
      rw [hf] at h
      simp only [Bool.not_true, Bool.false_eq_true, if_false] at h
      rw [eb_ok_iff] at h; obtain ⟨role, -, h⟩ := h
      simp only [objGet, habs, Option.getD_some, Json.asList, eb_ok] at h
      simp only [rowsMapM, abilityRowOf, pyGet_obj, eb_ok] at h
      rw [eb_ok_iff] at h; obtain ⟨de, hd, h⟩ := h
      simp at h
      subst h
      rw [descr500_obj_str afs s hs] at hd
      simp at hd
      subst hd
      rfl
  · intro fs afs row h habs hs
    simp only [transform_abilities, foldRows_singleton, abilityRowsOf,
      pyGet_obj, eb_ok] at h
    cases hf : (objGet fs "isPlayableCharacter" (.bool false)).truthy with
    | false => rw [hf] at h; simp at h
    | true =>
      rw [hf] at h
      simp only [Bool.not_true, Bool.false_eq_true, if_false] at h
      rw [eb_ok_iff] at h; obtain ⟨role, -, h⟩ := h
      simp only [objGet, habs, Option.getD_some, Json.asList, eb_ok] at h
      simp only [rowsMapM, abilityRowOf, pyGet_obj, eb_ok] at h
      rw [eb_ok_iff] at h; obtain ⟨de, hd, h⟩ := h
      simp at h
      subst h
      rw [descr500_obj_missing afs hs] at hd
      simp at hd
      subst hd
      rfl
  · intro s hlt
    have h1 : (String.mk (s.data.take 500)).length = (s.data.take 500).length := rfl
    have h2 : s.length = s.data.length := rfl
    rw [h2] at hlt
    rw [h1, List.length_take]
    exact Nat.min_eq_left (Nat.le_of_lt hlt)
  · intro s hle
    have h2 : s.length = s.data.length := rfl
    rw [h2] at hle
    rw [List.take_of_length_le hle]

set_option maxRecDepth 8000 in
/-- C3 witness: a 501-character description is cut to exactly 500
characters, and a short one is returned unchanged. -/
theorem c3_description_witness :
    transform_agents [.obj longDescrFields] = .ok [truncAgentRow] ∧
    lookupField longDescrFields "description" = some (.str longDescr) ∧
    lookupField truncAgentRow "description" =
      some (.str (String.mk (longDescr.data.take 500))) ∧
    transform_abilities [.obj nullDescrAbilityFields] =
      .ok [nullDescrAbilityRow] ∧
    lookupField [("description", Json.null)] "description" = some Json.null ∧
    lookupField nullDescrAbilityRow "description" = some (.str "") ∧
    500 < longDescr.length ∧
    (String.mk (longDescr.data.take 500)).length = 500 ∧
    String.mk (("short" : String).data.take 500) = "short" :=
  ⟨rfl, rfl,
   c3_description_truncation.1 longDescrFields truncAgentRow longDescr rfl rfl,
   rfl, rfl,
   c3_description_truncation.2.2.2.1 nullDescrAbilityFields
     [("description", Json.null)] nullDescrAbilityRow rfl rfl (Or.inr rfl),
   by decide,
   c3_description_truncation.2.2.2.2.1 longDescr (by decide),
   c3_description_truncation.2.2.2.2.2 "short" (by decide)⟩

/-! ## C4 -/

theorem rowsMapM_ok_length (f : Json → Except String Row) :
    ∀ (xs : List Json) (rows : List Row),
      rowsMapM f xs = .ok rows → rows.length = xs.length := by
  intro xs
  induction xs with
  | nil =>
    intro rows h
    simp [rowsMapM] at h
    subst h
    rfl
  | cons x rest ih =>
    intro rows h
    simp only [rowsMapM] at h
    rw [eb_ok_iff] at h; obtain ⟨r, -, h⟩ := h
    rw [eb_ok_iff] at h; obtain ⟨rs, hrs, h⟩ := h
    simp at h
    subst h
    simp [ih rs hrs]

theorem agentRowsOf_ok_length (a : Json) (rows : List Row)
    (h : agentRowsOf a = .ok rows) : rows.length = specAgentCount a := by
  cases a with
  | null => simp [agentRowsOf, pyGet] at h
  | bool b => simp [agentRowsOf, pyGet] at h
  | num n => simp [agentRowsOf, pyGet] at h
  | str s => simp [agentRowsOf, pyGet] at h
  | arr xs => simp [agentRowsOf, pyGet] at h
  | obj fs =>
    simp only [agentRowsOf, pyGet_obj, eb_ok] at h
    cases hf : (objGet fs "isPlayableCharacter" (.bool false)).truthy with
    | false =>
      rw [hf] at h
      simp at h
      subst h
      simp [specAgentCount, hf]
    | true =>
      rw [hf] at h
      simp only [Bool.not_true, Bool.false_eq_true, if_false] at h
      rw [eb_ok_iff] at h; obtain ⟨role, -, h⟩ := h
      rw [eb_ok_iff] at h; obtain ⟨de, -, h⟩ := h
      simp at h
      subst h
      simp [specAgentCount, hf]

theorem abilityRowsOf_ok_length (a : Json) (rows : List Row)
    (h : abilityRowsOf a = .ok rows) : rows.length = specAbilityCount a := by
  cases a with
  | null => simp [abilityRowsOf, pyGet] at h
  | bool b => simp [abilityRowsOf, pyGet] at h
  | num n => simp [abilityRowsOf, pyGet] at h
  | str s => simp [abilityRowsOf, pyGet] at h
  | arr xs => simp [abilityRowsOf, pyGet] at h
  | obj fs =>
    simp only [abilityRowsOf, pyGet_obj, eb_ok] at h
    cases hf : (objGet fs "isPlayableCharacter" (.bool false)).truthy with
    | false =>
      rw [hf] at h
      simp at h
      subst h
      simp [specAbilityCount, hf]
    | true =>
      rw [hf] at h
      simp only [Bool.not_true, Bool.false_eq_true, if_false] at h
      rw [eb_ok_iff] at h; obtain ⟨role, -, h⟩ := h
      rw [eb_ok_iff] at h; obtain ⟨abs, habs, h⟩ := h
      cases hsh : objGet fs "abilities" (.arr []) with
      | arr xs =>
        rw [hsh] at habs
        simp [Json.asList] at habs
        subst habs
        simp [specAbilityCount, hf, hsh, rowsMapM_ok_length _ xs rows h]
      | null => rw [hsh] at habs; simp [Json.asList] at habs
      | bool b => rw [hsh] at habs; simp [Json.asList] at habs
      | num n => rw [hsh] at habs; simp [Json.asList] at habs
      | str s => rw [hsh] at habs; simp [Json.asList] at habs
      | obj gs => rw [hsh] at habs; simp [Json.asList] at habs

theorem foldRows_length (f : Json → Except String (List Row)) (g : Json → Nat)
    (hf : ∀ a rows, f a = .ok rows → rows.length = g a) :
    ∀ (l : List Json) (t : Table),
      foldRows f l = .ok t → t.length = (l.map g).sum := by
  intro l
  induction l with
  | nil =>
    intro t h
    simp [foldRows_nil] at h
    subst h
    rfl
  | cons x rest ih =>
    intro t h
    rw [foldRows_cons, eb_ok_iff] at h
    obtain ⟨rows, hrows, h⟩ := h
    rw [eb_ok_iff] at h
    obtain ⟨rest2, hrest, h⟩ := h
    simp at h
    subst h
    simp [List.length_append, hf x rows hrows, ih rest2 hrest]

/-- C4: the Ability table has as many rows as the playable agents have
abilities in total, the Agent table one row per playable agent, and a
record not flagged playable contributes zero rows to either table. -/
theorem c4_row_count_law :
    (∀ (l : List Json) (t : Table), transform_abilities l = .ok t →
        t.length = (l.map specAbilityCount).sum) ∧
    (∀ (l : List Json) (t : Table), transform_agents l = .ok t →
        t.length = (l.map specAgentCount).sum) ∧
    (∀ fs, (objGet fs "isPlayableCharacter" (.bool false)).truthy = false →
        agentRowsOf (.obj fs) = .ok [] ∧ abilityRowsOf (.obj fs) = .ok []) := by
  refine ⟨?_, ?_, ?_⟩
  · exact fun l t h => foldRows_length _ _ abilityRowsOf_ok_length l t h
  · exact fun l t h => foldRows_length _ _ agentRowsOf_ok_length l t h
  · intro fs hf
    constructor <;> simp [agentRowsOf, abilityRowsOf, pyGet_obj, hf]

/-- C4 witness: the end-to-end scenario with one playable agent carrying
two abilities and one non-playable record carrying three: one Agent row
and two Ability rows. -/
theorem c4_row_count_witness :
    transform_abilities agentsFixture = .ok [abilityRowQ, abilityRowE] ∧
    ([abilityRowQ, abilityRowE] : Table).length =
      (agentsFixture.map specAbilityCount).sum ∧
    (agentsFixture.map specAbilityCount).sum = 2 ∧
    transform_agents agentsFixture = .ok [agentFixtureRow] ∧
    ([agentFixtureRow] : Table).length = (agentsFixture.map specAgentCount).sum ∧
    (agentsFixture.map specAgentCount).sum = 1 ∧
    agentRowsOf (.obj nonPlayableFields) = .ok [] ∧
    abilityRowsOf (.obj nonPlayableFields) = .ok [] :=
  ⟨rfl, c4_row_count_law.1 agentsFixture _ rfl, rfl,
   rfl, c4_row_count_law.2.1 agentsFixture _ rfl, rfl,
   (c4_row_count_law.2.2 nonPlayableFields rfl).1,
   (c4_row_count_law.2.2 nonPlayableFields rfl).2⟩

/-! ## C5 -/

/-- C5: a table appears in the transform output exactly when its source
endpoint key is present in the input mapping (derived tables following
their source endpoint), and a present endpoint with an empty record list
yields a present table with zero rows. -/
theorem c5_endpoint_gating (raw : RawData) (t : Transformed)
    (h : transform_all raw = .ok t) :
    (t.agents.isSome = raw.agents.isSome) ∧
    (t.abilities.isSome = raw.agents.isSome) ∧
    (t.weapons.isSome = raw.weapons.isSome) ∧
    (t.weapon_damage.isSome = raw.weapons.isSome) ∧
    (t.maps.isSome = raw.maps.isSome) ∧
    (t.gamemodes.isSome = raw.gamemodes.isSome) ∧
    (raw.agents = some [] → t.agents = some [] ∧ t.abilities = some []) ∧
    (raw.weapons = some [] → t.weapons = some [] ∧ t.weapon_damage = some []) ∧
    (raw.maps = some [] → t.maps = some []) ∧
    (raw.gamemodes = some [] → t.gamemodes = some []) := by
  obtain ⟨oa, ow, om, og⟩ := raw
  simp only [transform_all] at h
  rw [eb_ok_iff] at h; obtain ⟨ag, hag, h⟩ := h
  rw [eb_ok_iff] at h; obtain ⟨wp, hwp, h⟩ := h
  rw [eb_ok_iff] at h; obtain ⟨mp, hmp, h⟩ := h
  rw [eb_ok_iff] at h; obtain ⟨gm, hgm, h⟩ := h
  simp at h
  subst h
  obtain ⟨ag1, ag2⟩ := ag
  obtain ⟨wp1, wp2⟩ := wp
  have HA : ag1.isSome = oa.isSome ∧ ag2.isSome = oa.isSome ∧
      (oa = some [] → ag1 = some [] ∧ ag2 = some []) := by
    cases oa with
    | none =>
      simp at hag
      obtain ⟨h1, h2⟩ := hag
      subst h1; subst h2
      simp
    | some l =>
      simp only at hag
      rw [eb_ok_iff] at hag; obtain ⟨a, ha, hag⟩ := hag
      rw [eb_ok_iff] at hag; obtain ⟨b, hb, hag⟩ := hag
      simp at hag
      obtain ⟨h1, h2⟩ := hag
      subst h1; subst h2
      refine ⟨rfl, rfl, ?_⟩
      intro hl
      injection hl with hl
      subst hl
      simp only [transform_agents, transform_abilities, foldRows_nil] at ha hb
      simp at ha hb
      subst ha; subst hb
      exact ⟨rfl, rfl⟩
  have HW : wp1.isSome = ow.isSome ∧ wp2.isSome = ow.isSome ∧
      (ow = some [] → wp1 = some [] ∧ wp2 = some []) := by
    cases ow with
    | none =>
      simp at hwp
      obtain ⟨h1, h2⟩ := hwp
      subst h1; subst h2
      simp
    | some l =>
      simp only at hwp
      rw [eb_ok_iff] at hwp; obtain ⟨a, ha, hwp⟩ := hwp
      rw [eb_ok_iff] at hwp; obtain ⟨b, hb, hwp⟩ := hwp
      simp at hwp
      obtain ⟨h1, h2⟩ := hwp
      subst h1; subst h2
      refine ⟨rfl, rfl, ?_⟩
      intro hl
      injection hl with hl
      subst hl
      simp only [transform_weapons, transform_damage_ranges, foldRows_nil] at ha hb
      simp at ha hb
      subst ha; subst hb
      exact ⟨rfl, rfl⟩
  have HM : mp.isSome = om.isSome ∧ (om = some [] → mp = some []) := by
    cases om with
    | none =>
      simp at hmp
      subst hmp
      simp
    | some l =>
      simp only at hmp
      rw [eb_ok_iff] at hmp; obtain ⟨a, ha, hmp⟩ := hmp
      simp at hmp
      subst hmp
      refine ⟨rfl, ?_⟩
      intro hl
      injection hl with hl
      subst hl
      simp only [transform_maps, foldRows_nil] at ha
      simp at ha
      subst ha
      rfl
  have HG : gm.isSome = og.isSome ∧ (og = some [] → gm = some []) := by
    cases og with
    | none =>
      simp at hgm
      subst hgm
      simp
    | some l =>
      simp only at hgm
      rw [eb_ok_iff] at hgm; obtain ⟨a, ha, hgm⟩ := hgm
      simp at hgm
      subst hgm
      refine ⟨rfl, ?_⟩
      intro hl
      injection hl with hl
      subst hl
      simp only [transform_gamemodes, foldRows_nil] at ha
      simp at ha
      subst ha
      rfl
  exact ⟨HA.1, HA.2.1, HW.1, HW.2.1, HM.1, HG.1, HA.2.2, HW.2.2, HM.2, HG.2⟩

/-- C5 witness: without the `agents` and `weapons` keys no agent,
ability, weapon or damage table is produced, while `maps` present with
an empty list yields a present table with zero rows. -/
theorem c5_endpoint_witness :
    transform_all raw5Fixture = .ok t5Fixture ∧
    t5Fixture.maps.isSome = raw5Fixture.maps.isSome ∧
    t5Fixture.maps = some [] ∧
    t5Fixture.agents.isSome = raw5Fixture.agents.isSome ∧
    t5Fixture.agents = none ∧
    t5Fixture.abilities = none :=
  ⟨rfl,
   (c5_endpoint_gating raw5Fixture t5Fixture rfl).2.2.2.2.1,
   (c5_endpoint_gating raw5Fixture t5Fixture rfl).2.2.2.2.2.2.2.2.1 rfl,
   (c5_endpoint_gating raw5Fixture t5Fixture rfl).1,
   rfl, rfl⟩

/-! ## C6 -/

theorem foldRows_append (f : Json → Except String (List Row)) (xs ys : List Json) :
    foldRows f (xs ++ ys) =
      eb (foldRows f xs) fun a => eb (foldRows f ys) fun b => .ok (a ++ b) := by
  induction xs with
  | nil =>
    simp only [List.nil_append, foldRows_nil, eb_ok]
    cases h : foldRows f ys with
    | error e => simp
    | ok b => simp
  | cons x rest ih =>
    simp only [List.cons_append, foldRows_cons, ih]
    cases hx : f x with
    | error e => simp
    | ok rows =>
      simp only [eb_ok]
      cases h1 : foldRows f rest with
      | error e => simp
      | ok a =>
        simp only [eb_ok]
        cases h2 : foldRows f ys with
        | error e => simp
        | ok b => simp

/-- C6: the transform stage is a pure function of its input (running it
twice gives the same tables), and each table is the concatenation, in
source order, of the rows contributed by each record: no sorting and no
deduplication can occur, and each row's position is determined by its
source record's position. -/
theorem c6_deterministic_source_order :
    (∀ raw, transform_all raw = transform_all raw) ∧
    (∀ xs ys, transform_agents (xs ++ ys) =
        eb (transform_agents xs) fun a =>
        eb (transform_agents ys) fun b => .ok (a ++ b)) ∧
    (∀ xs ys, transform_abilities (xs ++ ys) =
        eb (transform_abilities xs) fun a =>
        eb (transform_abilities ys) fun b => .ok (a ++ b)) ∧
    (∀ xs ys, transform_weapons (xs ++ ys) =
        eb (transform_weapons xs) fun a =>
        eb (transform_weapons ys) fun b => .ok (a ++ b)) ∧
    (∀ xs ys, transform_damage_ranges (xs ++ ys) =
        eb (transform_damage_ranges xs) fun a =>
        eb (transform_damage_ranges ys) fun b => .ok (a ++ b)) ∧
    (∀ xs ys, transform_maps (xs ++ ys) =
        eb (transform_maps xs) fun a =>
        eb (transform_maps ys) fun b => .ok (a ++ b)) ∧
    (∀ xs ys, transform_gamemodes (xs ++ ys) =
        eb (transform_gamemodes xs) fun a =>
        eb (transform_gamemodes ys) fun b => .ok (a ++ b)) :=
  ⟨fun _ => rfl,
   fun xs ys => foldRows_append agentRowsOf xs ys,
   fun xs ys => foldRows_append abilityRowsOf xs ys,
   fun xs ys => foldRows_append weaponRowsOf xs ys,
   fun xs ys => foldRows_append damageRowsOf xs ys,
   fun xs ys => foldRows_append mapRowsOf xs ys,
   fun xs ys => foldRows_append gamemodeRowsOf xs ys⟩

/-! ## C7 -/

/-- C7: the `num_callouts` cell of a map row is the length of the
record's callouts list, an absent or null callouts list counting as
zero, and the row carries only the five fixed columns (the raw list is
never copied into the output). -/
theorem c7_num_callouts (fs : List (String × Json)) (row : Row)
    (h : transform_maps [.obj fs] = .ok [row]) :
    (lookupField fs "callouts" = none →
        lookupField row "num_callouts" = some (.num 0)) ∧
    (lookupField fs "callouts" = some .null →
        lookupField row "num_callouts" = some (.num 0)) ∧
    (∀ xs, lookupField fs "callouts" = some (.arr xs) →
        lookupField row "num_callouts" = some (.num xs.length)) ∧
    row.map Prod.fst = ["uuid", "name", "coordinates", "num_callouts",
                        "splash_url"] := by
  simp only [transform_maps, foldRows_singleton, mapRowsOf, pyGet_obj,
    eb_ok] at h
  rw [eb_ok_iff] at h
  obtain ⟨n, hn, h⟩ := h
  simp at h
  subst h
  refine ⟨?_, ?_, ?_, rfl⟩
  · intro hc
    simp only [objGet, hc, Option.getD_none] at hn
    simp [pyOr, Json.truthy, pyLen] at hn
    subst hn
    rfl
  · intro hc
    simp only [objGet, hc, Option.getD_some] at hn
    simp [pyOr, Json.truthy, pyLen] at hn
    subst hn
    rfl
  · intro xs hc
    simp only [objGet, hc, Option.getD_some] at hn
    rw [pyLen_or_arr] at hn
    simp at hn
    subst hn
    rfl

/-- C7 witness: a map with two callouts yields `num_callouts = 2` and
exactly the five fixed columns. -/
theorem c7_num_callouts_witness :
    transform_maps [.obj ascentFields] = .ok [ascentRow] ∧
    lookupField ascentFields "callouts" = some (.arr [.obj [], .obj []]) ∧
    lookupField ascentRow "num_callouts" = some (.num 2) ∧
    ascentRow.map Prod.fst = ["uuid", "name", "coordinates", "num_callouts",
                              "splash_url"] :=
  ⟨rfl, rfl,
   (c7_num_callouts ascentFields ascentRow rfl).2.2.1 [.obj [], .obj []] rfl,
   (c7_num_callouts ascentFields ascentRow rfl).2.2.2⟩

/-! ## C8 -/

theorem damageRowOf_ok (wname : Json) (i : Nat) (dr : Json) (row : Row)
    (h : damageRowOf wname i dr = .ok row) :
    lookupField row "weapon_name" = some wname ∧
    lookupField row "range_index" = some (.num i) := by
  cases dr with
  | null => simp [damageRowOf, pyGet] at h
  | bool b => simp [damageRowOf, pyGet] at h
  | num n => simp [damageRowOf, pyGet] at h
  | str s => simp [damageRowOf, pyGet] at h
  | arr xs => simp [damageRowOf, pyGet] at h
  | obj dfs =>
    simp only [damageRowOf, pyGet_obj, eb_ok] at h
    simp at h
    subst h
    exact ⟨rfl, rfl⟩

theorem damageRowsAux_spec (wname : Json) :
    ∀ (drs : List Json) (i : Nat) (rows : List Row),
      damageRowsAux wname i drs = .ok rows →
      rows.length = drs.length ∧
      ∀ j, j < drs.length → ∃ row, rows[j]? = some row ∧
        lookupField row "range_index" = some (.num (i + j)) ∧
        lookupField row "weapon_name" = some wname := by
  intro drs
  induction drs with
  | nil =>
    intro i rows h
    simp [damageRowsAux] at h
    subst h
    refine ⟨rfl, ?_⟩
    intro j hj
    simp at hj
  | cons dr rest ih =>
    intro i rows h
    simp only [damageRowsAux] at h
    rw [eb_ok_iff] at h; obtain ⟨r, hr, h⟩ := h
    rw [eb_ok_iff] at h; obtain ⟨rs, hrs, h⟩ := h
    simp at h
    subst h
    obtain ⟨hlen, hidx⟩ := ih (i + 1) rs hrs
    refine ⟨by simp [hlen], ?_⟩
    intro j hj
    cases j with
    | zero =>
      obtain ⟨hw, hi⟩ := damageRowOf_ok wname i dr r hr
      exact ⟨r, by simp, by simpa using hi, hw⟩
    | succ j =>
      have hj2 : j < rest.length := by
        simpa [Nat.succ_lt_succ_iff] using hj
      obtain ⟨row, h1, h2, h3⟩ := hidx j hj2
      refine ⟨row, by simpa using h1, ?_, h3⟩
      have he : (((i + 1 : Nat) : Int) + (j : Nat)) =
          ((i : Nat) : Int) + ((j + 1 : Nat) : Int) := by push_cast; ring
      rw [he] at h2
      exact h2

/-- C8: every damage-range entry of a weapon yields one row carrying the
weapon's display name and a zero-based `range_index` equal to the
entry's position in the weapon's damage-range list, in input order. -/
theorem c8_damage_range_index (fs stats : List (String × Json))
    (drs : List Json) (rows : List Row)
    (hst : lookupField fs "weaponStats" = some (.obj stats))
    (hdr : lookupField stats "damageRanges" = some (.arr drs))
    (h : transform_damage_ranges [.obj fs] = .ok rows) :
    rows.length = drs.length ∧
    ∀ j, j < drs.length → ∃ row, rows[j]? = some row ∧
      lookupField row "range_index" = some (.num j) ∧
      lookupField row "weapon_name" =
        some (objGet fs "displayName" (.str "")) := by
  simp only [transform_damage_ranges, foldRows_singleton, damageRowsOf,
    pyGet_obj, eb_ok] at h
  rw [show objGet fs "weaponStats" Json.null = .obj stats by
    simp [objGet, hst]] at h
  cases stats with
  | nil => simp [lookupField] at hdr
  | cons p ps =>
    rw [show pyOr (Json.obj (p :: ps)) (.obj []) = .obj (p :: ps) by
      simp [pyOr, Json.truthy]] at h
    simp only [pyGet_obj, eb_ok] at h
    rw [show objGet (p :: ps) "damageRanges" (.arr []) = .arr drs by
      simp [objGet, hdr]] at h
    rw [asList_or_arr] at h
    simp only [eb_ok] at h
    obtain ⟨hlen, hidx⟩ := damageRowsAux_spec _ drs 0 rows h
    refine ⟨hlen, ?_⟩
    intro j hj
    obtain ⟨row, h1, h2, h3⟩ := hidx j hj
    exact ⟨row, h1, by simpa using h2, h3⟩

/-- C8 witness: a weapon with three damage brackets yields three rows
with `range_index` 0, 1, 2 in input order, all carrying the weapon's
name. -/
theorem c8_damage_range_witness :
    transform_damage_ranges [.obj vandalFields] =
      .ok [vandalRangeRow 0, vandalRangeRow 1, vandalRangeRow 2] ∧
    ([vandalRangeRow 0, vandalRangeRow 1, vandalRangeRow 2] : List Row).length =
      ([Json.obj [], Json.obj [], Json.obj []] : List Json).length ∧
    lookupField (vandalRangeRow 0) "range_index" = some (.num 0) ∧
    lookupField (vandalRangeRow 1) "range_index" = some (.num 1) ∧
    lookupField (vandalRangeRow 2) "range_index" = some (.num 2) ∧
    lookupField (vandalRangeRow 2) "weapon_name" = some (.str "Vandal") :=
  ⟨rfl,
   (c8_damage_range_index vandalFields vandalStats
     [Json.obj [], Json.obj [], Json.obj []] _ rfl rfl rfl).1,
   rfl, rfl, rfl, rfl⟩

/-! ## C9 -/

/-- C9: whenever `load_all` propagates an exception, the database it
leaves behind contains a failure-tagged `etl_runs` row for the current
run identifier, written before the exception is re-raised. -/
theorem c9_failure_metadata (writeOk : String → Table → Bool) (db : Db)
    (data : List (String × Table)) (run_id now : String) (dur : Int)
    (db2 : Db) (e : String)
    (h : load_all writeOk db data run_id now dur = (db2, .error e)) :
    ({ run_id := run_id, started_at := now, completed_at := now,
       status := "Failed: " ++ e, tables_loaded := 0, total_rows := 0,
       duration_seconds := 0 } : EtlRun) ∈ db2.etl_runs := by
  simp only [load_all] at h
  cases hl : loadTables writeOk run_id now db.tables data with
  | mk tabs r =>
    rw [hl] at h
    cases r with
    | ok n => simp at h
    | error e2 =>
      simp at h
      obtain ⟨h1, h2⟩ := h
      subst h2
      rw [← h1]
      simp [insertOrReplaceRun]

/-- C9 witness: a failing table write on a fresh database leaves exactly
the failure row behind and propagates the error. -/
theorem c9_failure_witness :
    load_all (fun _ _ => false) emptyDb [("agents", agentsTableFixture)]
        "run1" "t0" 0 =
      ({ etl_runs := [failedRunRow], tables := [] },
       .error "to_sql failed: agents") ∧
    failedRunRow ∈ ({ etl_runs := [failedRunRow], tables := [] } : Db).etl_runs :=
  ⟨rfl,
   c9_failure_metadata (fun _ _ => false) emptyDb
     [("agents", agentsTableFixture)] "run1" "t0" 0
     { etl_runs := [failedRunRow], tables := [] } "to_sql failed: agents" rfl⟩

/-! ## C10 -/

theorem loadTables_ok_total (writeOk : String → Table → Bool)
    (run_id now : String) :
    ∀ (data tabs tabs2 : List (String × Table)) (n : Int),
      loadTables writeOk run_id now tabs data = (tabs2, .ok n) →
      n = Int.ofNat (writtenRows data) := by
  intro data
  induction data with
  | nil =>
    intro tabs tabs2 n h
    simp [loadTables] at h
    simp [writtenRows, ← h.2]
  | cons p rest ih =>
    obtain ⟨name, df⟩ := p
    intro tabs tabs2 n h
    simp only [loadTables] at h
    by_cases he : df.isEmpty
    · rw [if_pos he] at h
      rw [ih tabs tabs2 n h]
      simp [writtenRows, he]
    · rw [if_neg he] at h
      by_cases hw : writeOk name df
      · rw [if_pos hw] at h
        cases hrec : loadTables writeOk run_id now
            (writeTable tabs name (df.map (stampRow run_id now))) rest with
        | mk t2 r =>
          rw [hrec] at h
          cases r with
          | error e2 => simp at h
          | ok m =>
            simp at h
            obtain ⟨-, h2⟩ := h
            rw [← h2, ih _ t2 m hrec]
            simp [writtenRows, he]
      · rw [if_neg hw] at h
        simp at h

/-- C10: the success metadata row counts in `tables_loaded` every table
handed to the Loader, the skipped empty ones included, while
`total_rows` counts only the rows of the non-empty tables actually
written. -/
theorem c10_success_metadata (writeOk : String → Table → Bool) (db : Db)
    (data : List (String × Table)) (run_id now : String) (dur : Int)
    (db2 : Db)
    (h : load_all writeOk db data run_id now dur = (db2, .ok ())) :
    ({ run_id := run_id, started_at := now, completed_at := now,
       status := "Success", tables_loaded := Int.ofNat data.length,
       total_rows := Int.ofNat (writtenRows data),
       duration_seconds := dur } : EtlRun) ∈ db2.etl_runs := by
  simp only [load_all] at h
  cases hl : loadTables writeOk run_id now db.tables data with
  | mk tabs r =>
    rw [hl] at h
    cases r with
    | error e2 => simp at h
    | ok n =>
      simp at h
      rw [← h]
      rw [loadTables_ok_total writeOk run_id now data db.tables tabs n hl]
      simp [insertOrReplaceRun]

/-- C10 witness: of two handed tables one is empty and skipped, so the
run row records `tables_loaded = 2` while only one table (one row) is
written: `tables_loaded` exceeds the tables written. -/
theorem c10_success_witness :
    load_all (fun _ _ => true) emptyDb loadDataFixture "run2" "t1" 5 =
      ({ etl_runs := [successRunRow],
         tables := [("maps", [[("uuid", .str "m1"), ("_etl_run_id", .str "run2"),
                               ("_etl_loaded_at", .str "t1")]])] }, .ok ()) ∧
    successRunRow ∈
      (load_all (fun _ _ => true) emptyDb loadDataFixture "run2" "t1" 5).1.etl_runs ∧
    successRunRow.tables_loaded = 2 ∧
    (load_all (fun _ _ => true) emptyDb loadDataFixture
        "run2" "t1" 5).1.tables.length = 1 :=
  ⟨rfl,
   c10_success_metadata (fun _ _ => true) emptyDb loadDataFixture "run2" "t1" 5
     (load_all (fun _ _ => true) emptyDb loadDataFixture "run2" "t1" 5).1 rfl,
   rfl, rfl⟩

end GameEtl
